import Mathlib

/-!
Shallow embedding of `src/rotary_i2c.py`, a MicroPython driver for an
I2C-attached rotary encoder (class `RotaryI2C`).

The driver's bus transport (`PimoroniI2C`) is an external collaborator: its
behaviour is modelled by environment parameters (`nsent` for the count a
write reports, `rb` for the bytes a read fills into the buffer) and the bus
activity each operation performs is recorded as a trace of `BusEvent`s.
Python exceptions are modelled with `Except`: each operation returns the
result (or the raised error message), the post-call object state, and the
trace of bus I/O it performed.
-/

namespace RotaryModel

/-- One observable action on the I2C bus or the clock. -/
inductive BusEvent : Type
  | write (devno : Int) (data : List Nat)
  | sleepMs (ms : Nat)
  | readInto (devno : Int) (size : Nat)
  deriving DecidableEq, Repr

/-- The mutable fields of the Python class `RotaryI2C` (the `i2c` field is
the transport object, modelled externally). Python integers are unbounded,
hence `Int` for the signed quantities. -/
structure RotaryI2C : Type where
  pin_num_sda : Nat
  pin_num_scl : Nat
  freq : Nat
  min_val : Int
  max_val : Int
  value : Int
  devno : Int
  deriving DecidableEq, Repr

/-- `RotaryI2C.__init__`: records the bus parameters and bounds, sets
`value = min_val`, stores the device number. -/
def init (pin_num_sda pin_num_scl freq : Nat) (min_val max_val devno : Int) :
    RotaryI2C :=
  { pin_num_sda := pin_num_sda
    pin_num_scl := pin_num_scl
    freq := freq
    min_val := min_val
    max_val := max_val
    value := min_val
    devno := devno }

/-- `RotaryI2C.set_device`. -/
def set_device (s : RotaryI2C) (devno : Int) : RotaryI2C :=
  { s with devno := devno }

/-- The message of the exception raised by `i2c_write` when no device
number is set (source line 76). -/
def writeErrorMsg : String :=
  "ERROR [rotary_i2c.i2c_write()] : No target device number has been set - I don\x27t know where to send it!"

/-- `RotaryI2C.i2c_write`: raises when `devno == 0`, otherwise writes
`cdata` to the bus and returns the transport-reported count `nsent`. -/
def i2c_write (s : RotaryI2C) (cdata : List Nat) (nsent : Nat) :
    Except String Nat × RotaryI2C × List BusEvent :=
  if s.devno = 0 then
    (Except.error writeErrorMsg, s, [])
  else
    let _clen := cdata.length
    (Except.ok nsent, s, [BusEvent.write s.devno cdata])

/-- The buffer `i2c_read` returns: `bytearray(dsize)` filled by the
transport; entry `i` is the byte the environment supplies for index `i`
(reduced mod 256, a `bytearray` holds bytes). -/
def readBuffer (dsize : Nat) (rb : Nat → Nat) : List Nat :=
  (List.range dsize).map fun i => rb i % 256

/-- `RotaryI2C.i2c_read`: writes the command, sleeps 8 ms, reads `dsize`
bytes into a fresh buffer and returns it. -/
def i2c_read (s : RotaryI2C) (cdata : List Nat) (dsize : Nat) (nsent : Nat)
    (rb : Nat → Nat) :
    Except String (List Nat) × RotaryI2C × List BusEvent :=
  match i2c_write s cdata nsent with
  | (Except.error e, s1, evs) => (Except.error e, s1, evs)
  | (Except.ok _, s1, evs) =>
      (Except.ok (readBuffer dsize rb), s1,
        evs ++ [BusEvent.sleepMs 8, BusEvent.readInto s1.devno dsize])

/-- `struct.unpack(">l", reply)[0]`: the 4 bytes as a two's-complement
signed big-endian 32-bit integer. -/
def unpackInt32BE (b0 b1 b2 b3 : Nat) : Int :=
  let u : Nat := ((b0 * 256 + b1) * 256 + b2) * 256 + b3
  if u < 2 ^ 31 then (u : Int) else (u : Int) - 2 ^ 32

/-- Source lines 101-104: `if value < min: value = max elif value > max:
value = min`. -/
def clampWrap (lo hi v : Int) : Int :=
  if v < lo then hi else if v > hi then lo else v

/-- `RotaryI2C.position`: request the delta with command `[0x11, 0x40]`,
decode the 4-byte reply as signed big-endian, subtract it from `value`,
clamp, store and return. -/
def position (s : RotaryI2C) (nsent : Nat) (rb : Nat → Nat) :
    Except String Int × RotaryI2C × List BusEvent :=
  match i2c_read s [0x11, 0x40] 4 nsent rb with
  | (Except.error e, s1, evs) => (Except.error e, s1, evs)
  | (Except.ok reply, s1, evs) =>
      let delta := unpackInt32BE (reply.getD 0 0) (reply.getD 1 0)
        (reply.getD 2 0) (reply.getD 3 0)
      let v := clampWrap s1.min_val s1.max_val (s1.value - delta)
      (Except.ok v, { s1 with value := v }, evs)

/-- `RotaryI2C.button`: command `[0x01, 0x04]`, 4-byte reply, true iff bit
0 of byte 0 is clear. -/
def button (s : RotaryI2C) (nsent : Nat) (rb : Nat → Nat) :
    Except String Bool × RotaryI2C × List BusEvent :=
  let rv := false
  match i2c_read s [0x01, 0x04] 4 nsent rb with
  | (Except.error e, s1, evs) => (Except.error e, s1, evs)
  | (Except.ok reply, s1, evs) =>
      let rv := if reply.getD 0 0 &&& 0x01 = 0 then true else rv
      (Except.ok rv, s1, evs)

/-- The delta `position` decodes when the environment supplies bytes `rb`. -/
def deltaOf (rb : Nat → Nat) : Int :=
  unpackInt32BE (rb 0 % 256) (rb 1 % 256) (rb 2 % 256) (rb 3 % 256)

/-! ### Concrete fixtures for witnesses and counterexamples -/

/-- A configured driver with the default bounds `[0, 10]` and `value = 0`
(the spec scenario state), device number 54. -/
def sStd : RotaryI2C := ⟨16, 17, 400000, 0, 10, 0, 54⟩

/-- A configured driver whose position sits mid-range (`value = 5`). -/
def sMid : RotaryI2C := ⟨16, 17, 400000, 0, 10, 5, 54⟩

/-- A driver with no device number set (`devno = 0`). -/
def sUnset : RotaryI2C := ⟨16, 17, 400000, 0, 10, 0, 0⟩

/-- A driver whose caller-mutable bounds are inverted: `min_val = 5 >
max_val = 0`. -/
def sInv : RotaryI2C := ⟨16, 17, 400000, 5, 0, 0, 54⟩

/-- Another inverted-bounds driver: `min_val = 1 > max_val = 0`. -/
def sInv4 : RotaryI2C := ⟨16, 17, 400000, 1, 0, 0, 54⟩

/-- Reply bytes `00 00 00 05`: delta 5. -/
def rb5 : Nat → Nat := fun i => if i = 3 then 5 else 0

/-- Reply bytes `00 00 00 08`: delta 8. -/
def rb8 : Nat → Nat := fun i => if i = 3 then 8 else 0

/-- Reply bytes `00 00 00 00`: delta 0. -/
def rbZero : Nat → Nat := fun _ => 0

/-- Reply bytes `FF FF FF FE`: delta -2. -/
def rbM2 : Nat → Nat := fun i => if i = 3 then 0xFE else 0xFF

/-- Reply bytes `FF FF FF FD`: delta -3. -/
def rbM3 : Nat → Nat := fun i => if i = 3 then 0xFD else 0xFF

/-- Reply bytes `FF FF FF EC`: delta -20. -/
def rbM20 : Nat → Nat := fun i => if i = 3 then 0xEC else 0xFF

/-- Reply whose every byte is `0xFE` (bit 0 clear). -/
def rbFE : Nat → Nat := fun _ => 0xFE

/-- Reply whose every byte is `0x01` (bit 0 set). -/
def rbOne : Nat → Nat := fun _ => 0x01

/-! ### Unfolding lemmas shared by the claim theorems -/

lemma readBuffer_four (rb : Nat → Nat) :
    readBuffer 4 rb = [rb 0 % 256, rb 1 % 256, rb 2 % 256, rb 3 % 256] := rfl

lemma i2c_write_unset (s : RotaryI2C) (cdata : List Nat) (nsent : Nat)
    (h : s.devno = 0) :
    i2c_write s cdata nsent = (Except.error writeErrorMsg, s, []) := by
  simp [i2c_write, h]

lemma i2c_write_set (s : RotaryI2C) (cdata : List Nat) (nsent : Nat)
    (h : s.devno ≠ 0) :
    i2c_write s cdata nsent =
      (Except.ok nsent, s, [BusEvent.write s.devno cdata]) := by
  simp [i2c_write, h]

lemma i2c_read_unset (s : RotaryI2C) (cdata : List Nat) (dsize nsent : Nat)
    (rb : Nat → Nat) (h : s.devno = 0) :
    i2c_read s cdata dsize nsent rb = (Except.error writeErrorMsg, s, []) := by
  rw [i2c_read, i2c_write_unset s cdata nsent h]

lemma i2c_read_set (s : RotaryI2C) (cdata : List Nat) (dsize nsent : Nat)
    (rb : Nat → Nat) (h : s.devno ≠ 0) :
    i2c_read s cdata dsize nsent rb =
      (Except.ok (readBuffer dsize rb), s,
        [BusEvent.write s.devno cdata, BusEvent.sleepMs 8,
          BusEvent.readInto s.devno dsize]) := by
  rw [i2c_read, i2c_write_set s cdata nsent h]
  rfl

lemma position_set (s : RotaryI2C) (nsent : Nat) (rb : Nat → Nat)
    (h : s.devno ≠ 0) :
    position s nsent rb =
      (Except.ok (clampWrap s.min_val s.max_val (s.value - deltaOf rb)),
        { s with value := clampWrap s.min_val s.max_val (s.value - deltaOf rb) },
        [BusEvent.write s.devno [0x11, 0x40], BusEvent.sleepMs 8,
          BusEvent.readInto s.devno 4]) := by
  rw [position, i2c_read_set s [0x11, 0x40] 4 nsent rb h, readBuffer_four]
  rfl

lemma button_set (s : RotaryI2C) (nsent : Nat) (rb : Nat → Nat)
    (h : s.devno ≠ 0) :
    button s nsent rb =
      (Except.ok (if rb 0 % 256 &&& 0x01 = 0 then true else false), s,
        [BusEvent.write s.devno [0x01, 0x04], BusEvent.sleepMs 8,
          BusEvent.readInto s.devno 4]) := by
  rw [button, i2c_read_set s [0x01, 0x04] 4 nsent rb h, readBuffer_four]
  rfl

lemma button_state (s : RotaryI2C) (nsent : Nat) (rb : Nat → Nat) :
    (button s nsent rb).2.1 = s := by
  by_cases h : s.devno = 0
  · rw [button, i2c_read_unset s [0x01, 0x04] 4 nsent rb h]
  · rw [button_set s nsent rb h]

lemma i2c_write_state (s : RotaryI2C) (cdata : List Nat) (nsent : Nat) :
    (i2c_write s cdata nsent).2.1 = s := by
  by_cases h : s.devno = 0
  · rw [i2c_write_unset s cdata nsent h]
  · rw [i2c_write_set s cdata nsent h]

lemma i2c_read_state (s : RotaryI2C) (cdata : List Nat) (dsize nsent : Nat)
    (rb : Nat → Nat) : (i2c_read s cdata dsize nsent rb).2.1 = s := by
  by_cases h : s.devno = 0
  · rw [i2c_read_unset s cdata dsize nsent rb h]
  · rw [i2c_read_set s cdata dsize nsent rb h]

lemma clampWrap_low (lo hi v : Int) (hv : v < lo) : clampWrap lo hi v = hi := by
  rw [clampWrap, if_pos hv]

lemma clampWrap_high (lo hi v : Int) (hle : lo ≤ hi) (hv : hi < v) :
    clampWrap lo hi v = lo := by
  rw [clampWrap, if_neg (by omega), if_pos hv]

lemma clampWrap_id (lo hi v : Int) (h1 : lo ≤ v) (h2 : v ≤ hi) :
    clampWrap lo hi v = v := by
  rw [clampWrap, if_neg (by omega), if_neg (by omega)]

lemma unpackInt32BE_spec (b0 b1 b2 b3 : Nat) (h0 : b0 < 256) (h1 : b1 < 256)
    (h2 : b2 < 256) (h3 : b3 < 256) :
    -2 ^ 31 ≤ unpackInt32BE b0 b1 b2 b3 ∧
      unpackInt32BE b0 b1 b2 b3 < 2 ^ 31 ∧
      unpackInt32BE b0 b1 b2 b3 % 2 ^ 32 =
        ((((b0 * 256 + b1) * 256 + b2) * 256 + b3 : Nat) : Int) := by
  have e1 : (2 : Nat) ^ 31 = 2147483648 := by norm_num
  have e2 : (2 : Int) ^ 31 = 2147483648 := by norm_num
  have e3 : (2 : Int) ^ 32 = 4294967296 := by norm_num
  simp only [unpackInt32BE, e1, e2, e3]
  split_ifs <;> refine ⟨?_, ?_, ?_⟩ <;> push_cast <;> omega

/-! ### Claim theorems -/

/-- Claim C1, counterexample: with inverted bounds (`min_val = 5 > max_val
= 0`, a state the caller may produce since the bounds are mutable at any
time) and decoded delta -3, we have `value - delta = 3 > max_val`, yet
`position` returns and stores 0 (= `max_val`), not `min_val = 5`: the
`value < min_val` branch fires first. -/
theorem claim1_counterexample :
    sInv.value - deltaOf rbM3 > sInv.max_val ∧
    (position sInv 2 rbM3).1 = Except.ok 0 ∧
    (position sInv 2 rbM3).2.1.value = 0 ∧
    sInv.min_val = 5 :=
  ⟨by decide, rfl, by decide, by decide⟩

/-- Claim C1 (amended with `min_val ≤ max_val`): when the bounds are
ordered, if `value - delta > max_val` then `position` returns and stores
exactly `min_val`, and if `value - delta < min_val` it returns and stores
exactly `max_val` — a hard jump to the opposite bound however far the
overshoot. -/
theorem claim1_clamp_to_opposite_bound (s : RotaryI2C) (nsent : Nat)
    (rb : Nat → Nat) (h : s.devno ≠ 0) (hle : s.min_val ≤ s.max_val) :
    (s.value - deltaOf rb > s.max_val →
      (position s nsent rb).1 = Except.ok s.min_val ∧
      (position s nsent rb).2.1.value = s.min_val) ∧
    (s.value - deltaOf rb < s.min_val →
      (position s nsent rb).1 = Except.ok s.max_val ∧
      (position s nsent rb).2.1.value = s.max_val) := by
  constructor
  · intro hv
    rw [position_set s nsent rb h,
      clampWrap_high s.min_val s.max_val (s.value - deltaOf rb) hle hv]
    exact ⟨rfl, rfl⟩
  · intro hv
    rw [position_set s nsent rb h,
      clampWrap_low s.min_val s.max_val (s.value - deltaOf rb) hv]
    exact ⟨rfl, rfl⟩

/-- Claim C1, witness: from `value = 0` in `[0, 10]`, delta -20 overshoots
(`0 - (-20) = 20 > 10`) and yields `min_val = 0`; delta 5 undershoots
(`0 - 5 = -5 < 0`) and yields `max_val = 10`. -/
theorem claim1_witness :
    (sStd.devno ≠ 0 ∧ sStd.min_val ≤ sStd.max_val ∧
      sStd.value - deltaOf rbM20 > sStd.max_val ∧
      (position sStd 2 rbM20).1 = Except.ok sStd.min_val) ∧
    (sStd.value - deltaOf rb5 < sStd.min_val ∧
      (position sStd 2 rb5).1 = Except.ok sStd.max_val) :=
  ⟨⟨by decide, by decide, by decide,
    ((claim1_clamp_to_opposite_bound sStd 2 rbM20 (by decide) (by decide)).1
      (by decide)).1⟩,
    ⟨by decide,
    ((claim1_clamp_to_opposite_bound sStd 2 rb5 (by decide) (by decide)).2
      (by decide)).1⟩⟩

/-- Claim C2: `position` writes exactly `[0x11, 0x40]`, sleeps, reads 4
bytes, and both returns and stores `clampWrap min_val max_val (value -
delta)` where `delta` is the reply decoded by `unpackInt32BE` — a
subtraction of the decode. `unpackInt32BE` is genuinely two's-complement
signed big-endian: `FF FF FF FE` decodes to -2, and for all byte values
the decode lies in `[-2^31, 2^31)` and is congruent mod `2^32` to the
big-endian unsigned word. -/
theorem claim2_decode_and_subtract (s : RotaryI2C) (nsent : Nat)
    (rb : Nat → Nat) (h : s.devno ≠ 0) :
    (position s nsent rb).2.2 =
      [BusEvent.write s.devno [0x11, 0x40], BusEvent.sleepMs 8,
        BusEvent.readInto s.devno 4] ∧
    (position s nsent rb).1 =
      Except.ok (clampWrap s.min_val s.max_val (s.value - deltaOf rb)) ∧
    (position s nsent rb).2.1.value =
      clampWrap s.min_val s.max_val (s.value - deltaOf rb) ∧
    unpackInt32BE 0xFF 0xFF 0xFF 0xFE = -2 ∧
    (∀ b0 b1 b2 b3 : Nat, b0 < 256 → b1 < 256 → b2 < 256 → b3 < 256 →
      -2 ^ 31 ≤ unpackInt32BE b0 b1 b2 b3 ∧
        unpackInt32BE b0 b1 b2 b3 < 2 ^ 31 ∧
        unpackInt32BE b0 b1 b2 b3 % 2 ^ 32 =
          ((((b0 * 256 + b1) * 256 + b2) * 256 + b3 : Nat) : Int)) := by
  rw [position_set s nsent rb h]
  exact ⟨rfl, rfl, rfl, by decide,
    fun b0 b1 b2 b3 h0 h1 h2 h3 => unpackInt32BE_spec b0 b1 b2 b3 h0 h1 h2 h3⟩

/-- Claim C2, witness: the protocol trace and decoded update at a concrete
state and the reply `FF FF FF FE`. -/
theorem claim2_witness :
    sStd.devno ≠ 0 ∧
    (position sStd 1 rbM2).2.2 =
      [BusEvent.write sStd.devno [0x11, 0x40], BusEvent.sleepMs 8,
        BusEvent.readInto sStd.devno 4] :=
  ⟨by decide, (claim2_decode_and_subtract sStd 1 rbM2 (by decide)).1⟩

/-- Claim C3: when `min_val ≤ value - delta ≤ max_val` the new position is
`value - delta` unmodified, boundary values included — returned and
stored as is, never re-clamped. -/
theorem claim3_in_range_passthrough (s : RotaryI2C) (nsent : Nat)
    (rb : Nat → Nat) (h : s.devno ≠ 0)
    (hlo : s.min_val ≤ s.value - deltaOf rb)
    (hhi : s.value - deltaOf rb ≤ s.max_val) :
    (position s nsent rb).1 = Except.ok (s.value - deltaOf rb) ∧
    (position s nsent rb).2.1.value = s.value - deltaOf rb := by
  rw [position_set s nsent rb h,
    clampWrap_id s.min_val s.max_val (s.value - deltaOf rb) hlo hhi]
  exact ⟨rfl, rfl⟩

/-- Claim C3, witness: `value = 5`, delta -2 gives `7 ∈ [0, 10]`, returned
unmodified; and `value = 0`, delta 0 gives exactly `min_val = 0`, also
returned unmodified. -/
theorem claim3_witness :
    (sMid.devno ≠ 0 ∧ sMid.min_val ≤ sMid.value - deltaOf rbM2 ∧
      sMid.value - deltaOf rbM2 ≤ sMid.max_val ∧
      (position sMid 2 rbM2).1 = Except.ok 7) ∧
    (sStd.min_val ≤ sStd.value - deltaOf rbZero ∧
      sStd.value - deltaOf rbZero ≤ sStd.max_val ∧
      (position sStd 2 rbZero).1 = Except.ok 0) :=
  ⟨⟨by decide, by decide, by decide,
    (claim3_in_range_passthrough sMid 2 rbM2 (by decide) (by decide)
      (by decide)).1⟩,
    ⟨by decide, by decide,
    (claim3_in_range_passthrough sStd 2 rbZero (by decide) (by decide)
      (by decide)).1⟩⟩

/-- Claim C4, counterexample: with inverted bounds (`min_val = 1 > max_val
= 0`) and delta 0, the stored value after `position` is 0, which is below
`min_val`: the claimed invariant fails for such prior states. -/
theorem claim4_counterexample :
    sInv4.devno ≠ 0 ∧
    (position sInv4 2 rbZero).2.1.min_val = 1 ∧
    (position sInv4 2 rbZero).2.1.max_val = 0 ∧
    (position sInv4 2 rbZero).2.1.value = 0 ∧
    ¬((position sInv4 2 rbZero).2.1.min_val ≤
        (position sInv4 2 rbZero).2.1.value) :=
  ⟨by decide, by decide, by decide, by decide, by decide⟩

/-- Claim C4 (amended with `min_val ≤ max_val`): whenever the bounds are
ordered, immediately after any `position` call the stored value lies in
`[min_val, max_val]`, and the call itself leaves the bounds unchanged. -/
theorem claim4_value_in_bounds (s : RotaryI2C) (nsent : Nat)
    (rb : Nat → Nat) (h : s.devno ≠ 0) (hle : s.min_val ≤ s.max_val) :
    (position s nsent rb).2.1.min_val ≤ (position s nsent rb).2.1.value ∧
    (position s nsent rb).2.1.value ≤ (position s nsent rb).2.1.max_val ∧
    (position s nsent rb).2.1.min_val = s.min_val ∧
    (position s nsent rb).2.1.max_val = s.max_val := by
  rw [position_set s nsent rb h]
  refine ⟨?_, ?_, rfl, rfl⟩ <;>
    simp only [clampWrap] <;> split_ifs <;> omega

/-- Claim C4, witness: the invariant at a concrete state and reply. -/
theorem claim4_witness :
    sStd.devno ≠ 0 ∧ sStd.min_val ≤ sStd.max_val ∧
    (position sStd 2 rb5).2.1.min_val ≤ (position sStd 2 rb5).2.1.value :=
  ⟨by decide, by decide,
    (claim4_value_in_bounds sStd 2 rb5 (by decide) (by decide)).1⟩

/-- Claim C5: with `devno = 0`, both `i2c_write` and `i2c_read` raise the
configuration error (the source's exact message, which names the failing
operation `rotary_i2c.i2c_write()`), leave the state untouched and
perform zero bus I/O — the event trace is empty, so no bytes are written,
no delay occurs, and no read is issued. -/
theorem claim5_unset_device_guard (s : RotaryI2C) (cdata : List Nat)
    (dsize nsent : Nat) (rb : Nat → Nat) (h : s.devno = 0) :
    i2c_write s cdata nsent = (Except.error writeErrorMsg, s, []) ∧
    i2c_read s cdata dsize nsent rb = (Except.error writeErrorMsg, s, []) :=
  ⟨i2c_write_unset s cdata nsent h, i2c_read_unset s cdata dsize nsent rb h⟩

/-- Claim C5, witness: the guard fires on a concrete unset driver and the
position command. -/
theorem claim5_witness :
    sUnset.devno = 0 ∧
    i2c_write sUnset [0x11, 0x40] 2 = (Except.error writeErrorMsg, sUnset, []) ∧
    i2c_read sUnset [0x11, 0x40] 4 2 rbZero =
      (Except.error writeErrorMsg, sUnset, []) :=
  ⟨by decide,
    (claim5_unset_device_guard sUnset [0x11, 0x40] 4 2 rbZero (by decide)).1,
    (claim5_unset_device_guard sUnset [0x11, 0x40] 4 2 rbZero (by decide)).2⟩

/-- Claim C6: `button` writes exactly `[0x01, 0x04]`, sleeps, reads 4
bytes; it returns true iff bit 0 of reply byte 0 is clear, false iff that
bit is set, and any two replies agreeing on that single bit produce the
same result (bytes 1-3 and the other bits of byte 0 have no effect). -/
theorem claim6_button_decode (s : RotaryI2C) (nsent : Nat) (rb : Nat → Nat)
    (h : s.devno ≠ 0) :
    ((button s nsent rb).1 = Except.ok true ↔ rb 0 % 256 &&& 0x01 = 0) ∧
    ((button s nsent rb).1 = Except.ok false ↔ ¬(rb 0 % 256 &&& 0x01 = 0)) ∧
    (button s nsent rb).2.2 =
      [BusEvent.write s.devno [0x01, 0x04], BusEvent.sleepMs 8,
        BusEvent.readInto s.devno 4] ∧
    (∀ rb2 : Nat → Nat, rb2 0 % 256 &&& 0x01 = rb 0 % 256 &&& 0x01 →
      (button s nsent rb2).1 = (button s nsent rb).1) := by
  rw [button_set s nsent rb h]
  refine ⟨?_, ?_, rfl, ?_⟩
  · by_cases hc : rb 0 % 256 &&& 0x01 = 0 <;> simp [hc]
  · by_cases hc : rb 0 % 256 &&& 0x01 = 0 <;> simp [hc]
  · intro rb2 heq
    rw [button_set s nsent rb2 h]
    simp only [heq]

/-- Claim C6, witness: reply byte0 `0xFE` (bit 0 clear) yields true, byte0
`0x01` yields false. -/
theorem claim6_witness :
    sStd.devno ≠ 0 ∧
    (button sStd 1 rbFE).1 = Except.ok true ∧
    (button sStd 1 rbOne).1 = Except.ok false :=
  ⟨by decide,
    ((claim6_button_decode sStd 1 rbFE (by decide)).1).mpr (by decide),
    ((claim6_button_decode sStd 1 rbOne (by decide)).2.1).mpr (by decide)⟩

/-- Claim C7: with a device configured, `i2c_read` performs exactly
write-command, 8 ms sleep, read of `dsize` bytes — in that order, and
returns a fresh buffer of length exactly `dsize`. -/
theorem claim7_read_sequence (s : RotaryI2C) (cdata : List Nat)
    (dsize nsent : Nat) (rb : Nat → Nat) (h : s.devno ≠ 0) :
    i2c_read s cdata dsize nsent rb =
      (Except.ok (readBuffer dsize rb), s,
        [BusEvent.write s.devno cdata, BusEvent.sleepMs 8,
          BusEvent.readInto s.devno dsize]) ∧
    (readBuffer dsize rb).length = dsize := by
  refine ⟨i2c_read_set s cdata dsize nsent rb h, ?_⟩
  simp [readBuffer]

/-- Claim C7, witness: the read sequence for the position command and a
4-byte reply at a concrete state. -/
theorem claim7_witness :
    sStd.devno ≠ 0 ∧
    i2c_read sStd [0x11, 0x40] 4 2 rb5 =
      (Except.ok (readBuffer 4 rb5), sStd,
        [BusEvent.write sStd.devno [0x11, 0x40], BusEvent.sleepMs 8,
          BusEvent.readInto sStd.devno 4]) ∧
    (readBuffer 4 rb5).length = 4 :=
  ⟨by decide,
    (claim7_read_sequence sStd [0x11, 0x40] 4 2 rb5 (by decide)).1,
    (claim7_read_sequence sStd [0x11, 0x40] 4 2 rb5 (by decide)).2⟩

/-- Claim C8: the two-read scenario. From `value = 0`, `min_val = 0`,
`max_val = 10`: a reply decoding to delta 5 gives `0 - 5 = -5`, which
underflows and clamps to `max_val = 10`; a second reply decoding to delta
8 then gives `10 - 8 = 2`, in range, no clamp. -/
theorem claim8_two_read_scenario :
    deltaOf rb5 = 5 ∧ deltaOf rb8 = 8 ∧
    (position sStd 2 rb5).1 = Except.ok 10 ∧
    (position sStd 2 rb5).2.1.value = 10 ∧
    (position ((position sStd 2 rb5).2.1) 2 rb8).1 = Except.ok 2 ∧
    (position ((position sStd 2 rb5).2.1) 2 rb8).2.1.value = 2 :=
  ⟨by decide, by decide, rfl, by decide, rfl, by decide⟩

/-- Claim C9: when the configuration error fires (`devno = 0`), the
operation is atomic — the whole driver record (hence every field: the pin
and frequency parameters, the bounds, `value` and `devno`) is exactly the
state before the call, for both `i2c_write` and `i2c_read`. -/
theorem claim9_error_atomicity (s : RotaryI2C) (cdata : List Nat)
    (dsize nsent : Nat) (rb : Nat → Nat) (h : s.devno = 0) :
    (i2c_write s cdata nsent).1 = Except.error writeErrorMsg ∧
    (i2c_write s cdata nsent).2.1 = s ∧
    (i2c_read s cdata dsize nsent rb).1 = Except.error writeErrorMsg ∧
    (i2c_read s cdata dsize nsent rb).2.1 = s := by
  rw [i2c_write_unset s cdata nsent h, i2c_read_unset s cdata dsize nsent rb h]
  exact ⟨rfl, rfl, rfl, rfl⟩

/-- Claim C9, witness: atomicity of the failing write and read on a
concrete unset driver and the button command. -/
theorem claim9_witness :
    sUnset.devno = 0 ∧
    (i2c_write sUnset [0x01, 0x04] 1).2.1 = sUnset ∧
    (i2c_read sUnset [0x01, 0x04] 4 1 rbFE).2.1 = sUnset :=
  ⟨by decide,
    (claim9_error_atomicity sUnset [0x01, 0x04] 4 1 rbFE (by decide)).2.1,
    (claim9_error_atomicity sUnset [0x01, 0x04] 4 1 rbFE (by decide)).2.2.2⟩

/-- Claim C10: `button` never mutates the driver — the post-call record
equals the pre-call record for every state and reply, device set or not;
and neither `i2c_write`, `i2c_read` nor `set_device` touches `value`, so
of the operations only `position` ever changes it. -/
theorem claim10_button_frame (s : RotaryI2C) (cdata : List Nat)
    (dsize nsent : Nat) (rb : Nat → Nat) (d : Int) :
    (button s nsent rb).2.1 = s ∧
    (i2c_write s cdata nsent).2.1.value = s.value ∧
    (i2c_read s cdata dsize nsent rb).2.1.value = s.value ∧
    (set_device s d).value = s.value :=
  ⟨button_state s nsent rb,
    by rw [i2c_write_state s cdata nsent],
    by rw [i2c_read_state s cdata dsize nsent rb],
    rfl⟩

end RotaryModel
